import Mathlib

/-!
Shallow embedding of `sixaxis-rs` (src/lib.rs): a driver for the Sony
DUALSHOCK3/SIXAXIS controller.  Pure decoding functions (`process_event`,
`process_stick`, `process_button`) are embedded as Lean functions; the
reader-loop state update and the `SixAxis` handle operations are embedded as
explicit state passing.  Machine integers are modelled as `Nat`/`Int`; a Rust
panic (here: the `byteorder` length asserts) is modelled as `Option.none`.
-/

namespace SixAxisRs

/-- The analog controls (`pub enum Axis`, lib.rs lines 30-39). -/
inductive Axis
  | LX
  | LY
  | RX
  | RY
deriving DecidableEq

/-- The analog shoulder buttons (`pub enum Shoulder`, lib.rs lines 44-53). -/
inductive Shoulder
  | L1
  | L2
  | R1
  | R2
deriving DecidableEq

/-- The digital buttons (`pub enum Button`, lib.rs lines 57-75). -/
inductive Button
  | Square
  | Circle
  | Triangle
  | Cross
  | PS
  | Start
  | Select
  | LeftStick
  | RightStick
  | Up
  | Down
  | Left
  | Right
  | L1
  | L2
  | R1
  | R2
deriving DecidableEq

/-- The error type (`pub enum Error`, lib.rs lines 96-104).  Note there is no
`UnknownEventType` or `UnknownControlIndex` variant in the source. -/
inductive Error
  | NoController
  | UnknownError
  | NotImplemented
  | NotOpen
  | AlreadyOpen
  | IOError
deriving DecidableEq

/-- The decoded event (`enum Event`, lib.rs lines 122-126).  Axis values are
`i16` (modelled as `Int`), shoulder values `u16` (modelled as `Nat`). -/
inductive Event
  | axis (a : Axis) (v : Int)
  | shoulder (s : Shoulder) (v : Nat)
  | button (b : Button) (v : Bool)
deriving DecidableEq

/-- `struct State` (lib.rs lines 79-83): three `HashMap`s, modelled as
functions into `Option` (unique keys, no ordering semantics). -/
structure State where
  axes : Axis → Option Int
  shoulders : Shoulder → Option Nat
  buttons : Button → Option Bool

/-- `State::new` (lib.rs lines 316-322): all three maps empty. -/
def State.new : State :=
  { axes := fun _ => none, shoulders := fun _ => none, buttons := fun _ => none }

/-- One successful-decode iteration of the reader loop (lib.rs lines 174-176):
`HashMap::insert` of the event's control into the corresponding map,
overwriting any previous entry; the other two maps are untouched. -/
def State.apply (s : State) : Event → State
  | .axis a v => { s with axes := fun x => if x = a then some v else s.axes x }
  | .shoulder sh v => { s with shoulders := fun x => if x = sh then some v else s.shoulders x }
  | .button b v => { s with buttons := fun x => if x = b then some v else s.buttons x }

/-- The reader loop applied to a whole list of decoded events in order
(lib.rs lines 167-183, restricted to the `Ok` decode arm; an `Err` decode is
dropped and changes nothing, see `State.applyResult`). -/
def State.applyAll (s : State) : List Event → State
  | [] => s
  | e :: rest => State.applyAll (State.apply s e) rest

/-- The full `match ev` of the reader loop (lib.rs lines 173-179): a decode
failure is dropped silently (`Err(_) => {}`). -/
def State.applyResult (s : State) : Except Error Event → State
  | .ok e => State.apply s e
  | .error _ => s

/-- `struct SixAxis` (lib.rs lines 87-94).  The `Arc<Mutex<State>>` is
modelled as the state itself (single sequential context); the
`Option<thread::JoinHandle<()>>` is modelled as an `Option Nat` token
identifying the spawned reader thread. -/
structure SixAxis where
  path : String
  state : State
  child : Option Nat

/-- `SixAxis::new` (lib.rs lines 148-155): fresh empty state, no thread. -/
def SixAxis.new (path : String) : SixAxis :=
  { path := path, state := State.new, child := none }

/-- `SixAxis::open` (lib.rs lines 158-187); `open` is a Lean keyword, hence
the name.  `fileOpen` is the outcome of `fs::File::open(&self.path)` (the
device is an external collaborator) and `newHandle` the `JoinHandle` returned
by `thread::spawn`.  On `Err(e)` the `?` operator returns
`Err(Error::from(e))`, i.e. `Error::IOError` (lib.rs lines 325-329), leaving
`self` untouched.  On `Ok` the code unconditionally stores the new handle in
`self.child`; there is no inspection of the previous `child` value anywhere in
the function. -/
def SixAxis.open_impl (s : SixAxis) (fileOpen : Except Unit Unit) (newHandle : Nat) :
    Except Error Unit × SixAxis :=
  match fileOpen with
  | .error _ => (.error .IOError, s)
  | .ok _ => (.ok (), { s with child := some newHandle })

/-- `SixAxis::close` (lib.rs lines 192-200): `None => Err(NotOpen)`,
`Some(ref th) => Err(NotImplemented)`; `self` is never modified. -/
def SixAxis.close (s : SixAxis) : Except Error Unit × SixAxis :=
  match s.child with
  | none => (.error .NotOpen, s)
  | some _ => (.error .NotImplemented, s)

/-- `SixAxis::read_axis` (lib.rs lines 207-214): lock, look up, `Ok(value)`
or `Ok(0)` when absent. -/
def SixAxis.read_axis (s : SixAxis) (axis : Axis) : Except Error Int :=
  match s.state.axes axis with
  | some value => .ok value
  | none => .ok 0

/-- `SixAxis::read_shoulder` (lib.rs lines 221-228). -/
def SixAxis.read_shoulder (s : SixAxis) (shoulder : Shoulder) : Except Error Nat :=
  match s.state.shoulders shoulder with
  | some value => .ok value
  | none => .ok 0

/-- `SixAxis::read_button` (lib.rs lines 235-242). -/
def SixAxis.read_button (s : SixAxis) (button : Button) : Except Error Bool :=
  match s.state.buttons button with
  | some value => .ok value
  | none => .ok false

/-- Rust slice expression `buf[lo..hi]` (half-open range). -/
def slice (buf : List Nat) (lo hi : Nat) : List Nat :=
  (buf.drop lo).take (hi - lo)

/-- `NativeEndian::read_u32` from the `byteorder` crate: combines the first
four bytes of the slice (little-endian host order); documented to panic when
`buf.len() < 4`, the panic modelled as `none`. -/
def read_u32_ne (bs : List Nat) : Option Nat :=
  if 4 ≤ bs.length then
    some (bs.getD 0 0 + 256 * bs.getD 1 0 + 65536 * bs.getD 2 0 + 16777216 * bs.getD 3 0)
  else none

/-- `NativeEndian::read_u16` from the `byteorder` crate: combines the first
two bytes; documented to panic when `buf.len() < 2`, modelled as `none`. -/
def read_u16_ne (bs : List Nat) : Option Nat :=
  if 2 ≤ bs.length then some (bs.getD 0 0 + 256 * bs.getD 1 0) else none

/-- Event-type tag constants (lib.rs lines 257-261). -/
def EVENT_TYPE_BUTTON : Nat := 1

def EVENT_TYPE_STICK : Nat := 2

def EVENT_TYPE_INIT : Nat := 128

def EVENT_TYPE_INITBUTTON : Nat := 129

def EVENT_TYPE_INITSTICK : Nat := 130

/-- The sign-extension computed by `process_stick` (lib.rs lines 303-307):
if the high bit of the 16-bit value is set, `((value as i32) - 65536) as i16`,
else `value as i16`.  For `value < 65536` both casts are exact, so the result
is `value - 65536` resp. `value` as an integer.  The source computes this
into `s_val` and then never uses it. -/
def stick_s_val (value : Nat) : Int :=
  if value &&& 0x8000 ≠ 0 then (value : Int) - 65536 else (value : Int)

/-- `process_stick` (lib.rs lines 302-309): computes `s_val` (discarded) and
returns `Ok(Event::Axis(Axis::LX, 0))` regardless of `ev_idx` and `value`. -/
def process_stick (ev_idx : Nat) (value : Nat) : Except Error Event :=
  let _s_val := stick_s_val value
  .ok (.axis .LX 0)

/-- `process_button` (lib.rs lines 311-313): returns
`Ok(Event::Button(Button::Start, false))` regardless of `ev_idx` and
`value`. -/
def process_button (ev_idx : Nat) (value : Nat) : Except Error Event :=
  .ok (.button .Start false)

/-- The `match ev_type` of `process_event` (lib.rs lines 295-299):
`EVENT_TYPE_STICK | EVENT_TYPE_INITSTICK` (2 or 130) goes to `process_stick`,
`EVENT_TYPE_BUTTON | EVENT_TYPE_INITBUTTON` (1 or 129) to `process_button`,
anything else to `Err(Error::UnknownError)`. -/
def process_event_dispatch (ev_type ev_idx value : Nat) : Except Error Event :=
  if ev_type = EVENT_TYPE_STICK ∨ ev_type = EVENT_TYPE_INITSTICK then
    process_stick ev_idx value
  else if ev_type = EVENT_TYPE_BUTTON ∨ ev_type = EVENT_TYPE_INITBUTTON then
    process_button ev_idx value
  else
    .error .UnknownError

/-- `process_event` (lib.rs lines 290-300).  The source reads the timestamp
with `NativeEndian::read_u32(&buf[0..3])` — a three-byte slice — and the value
with `NativeEndian::read_u16(&buf[4..5])` — a one-byte slice; both byteorder
calls panic on under-length slices, modelled as `none`.  If neither panicked,
the tag `buf[6]` and index `buf[7]` would be dispatched via
`process_event_dispatch`. -/
def process_event (buf : List Nat) : Option (Except Error Event) := do
  let _timestamp ← read_u32_ne (slice buf 0 3)
  let value ← read_u16_ne (slice buf 4 5)
  let ev_type := buf.getD 6 0
  let ev_idx := buf.getD 7 0
  pure (process_event_dispatch ev_type ev_idx value)

end SixAxisRs

namespace SixAxisRs

/-! ## Helper lemmas -/

/-- Applying an event that is not an axis event for `a` leaves `axes a`
unchanged. -/
theorem apply_axes_of_ne (s : State) (e : Event) (a : Axis)
    (h : ∀ v, e ≠ Event.axis a v) : (State.apply s e).axes a = s.axes a := by
  cases e with
  | axis a2 v =>
    simp only [State.apply]
    rw [if_neg]
    intro hc
    exact h v (by rw [hc])
  | shoulder sh v => rfl
  | button b v => rfl

/-- Applying an event that is not a shoulder event for `sh` leaves
`shoulders sh` unchanged. -/
theorem apply_shoulders_of_ne (s : State) (e : Event) (sh : Shoulder)
    (h : ∀ v, e ≠ Event.shoulder sh v) : (State.apply s e).shoulders sh = s.shoulders sh := by
  cases e with
  | axis a2 v => rfl
  | shoulder sh2 v =>
    simp only [State.apply]
    rw [if_neg]
    intro hc
    exact h v (by rw [hc])
  | button b v => rfl

/-- Applying an event that is not a button event for `b` leaves `buttons b`
unchanged. -/
theorem apply_buttons_of_ne (s : State) (e : Event) (b : Button)
    (h : ∀ v, e ≠ Event.button b v) : (State.apply s e).buttons b = s.buttons b := by
  cases e with
  | axis a2 v => rfl
  | shoulder sh2 v => rfl
  | button b2 v =>
    simp only [State.apply]
    rw [if_neg]
    intro hc
    exact h v (by rw [hc])

/-- A run of the reader loop containing no event for axis `a` leaves
`axes a` unchanged. -/
theorem applyAll_axes_of_not_mem (evs : List Event) (s : State) (a : Axis)
    (h : ∀ v, Event.axis a v ∉ evs) : (State.applyAll s evs).axes a = s.axes a := by
  induction evs generalizing s with
  | nil => rfl
  | cons e rest ih =>
    have h1 : ∀ v, Event.axis a v ∉ rest := fun v hv => h v (List.mem_cons_of_mem _ hv)
    have h2 : ∀ v, e ≠ Event.axis a v := by
      intro v he
      exact h v (by rw [← he]; exact List.mem_cons_self e rest)
    show (State.applyAll (State.apply s e) rest).axes a = s.axes a
    rw [ih (State.apply s e) h1, apply_axes_of_ne s e a h2]

/-- A run of the reader loop containing no event for shoulder `sh` leaves
`shoulders sh` unchanged. -/
theorem applyAll_shoulders_of_not_mem (evs : List Event) (s : State) (sh : Shoulder)
    (h : ∀ v, Event.shoulder sh v ∉ evs) :
    (State.applyAll s evs).shoulders sh = s.shoulders sh := by
  induction evs generalizing s with
  | nil => rfl
  | cons e rest ih =>
    have h1 : ∀ v, Event.shoulder sh v ∉ rest := fun v hv => h v (List.mem_cons_of_mem _ hv)
    have h2 : ∀ v, e ≠ Event.shoulder sh v := by
      intro v he
      exact h v (by rw [← he]; exact List.mem_cons_self e rest)
    show (State.applyAll (State.apply s e) rest).shoulders sh = s.shoulders sh
    rw [ih (State.apply s e) h1, apply_shoulders_of_ne s e sh h2]

/-- A run of the reader loop containing no event for button `b` leaves
`buttons b` unchanged. -/
theorem applyAll_buttons_of_not_mem (evs : List Event) (s : State) (b : Button)
    (h : ∀ v, Event.button b v ∉ evs) : (State.applyAll s evs).buttons b = s.buttons b := by
  induction evs generalizing s with
  | nil => rfl
  | cons e rest ih =>
    have h1 : ∀ v, Event.button b v ∉ rest := fun v hv => h v (List.mem_cons_of_mem _ hv)
    have h2 : ∀ v, e ≠ Event.button b v := by
      intro v he
      exact h v (by rw [← he]; exact List.mem_cons_self e rest)
    show (State.applyAll (State.apply s e) rest).buttons b = s.buttons b
    rw [ih (State.apply s e) h1, apply_buttons_of_ne s e b h2]

/-- `State.apply` never makes a present axis entry absent. -/
theorem apply_axes_isSome_mono (s : State) (e : Event) (a : Axis)
    (h : (s.axes a).isSome = true) : ((State.apply s e).axes a).isSome = true := by
  cases e with
  | axis a2 v =>
    simp only [State.apply]
    by_cases hc : a = a2
    · rw [if_pos hc]; rfl
    · rw [if_neg hc]; exact h
  | shoulder sh v => exact h
  | button b v => exact h

/-- `State.apply` never makes a present shoulder entry absent. -/
theorem apply_shoulders_isSome_mono (s : State) (e : Event) (sh : Shoulder)
    (h : (s.shoulders sh).isSome = true) : ((State.apply s e).shoulders sh).isSome = true := by
  cases e with
  | axis a2 v => exact h
  | shoulder sh2 v =>
    simp only [State.apply]
    by_cases hc : sh = sh2
    · rw [if_pos hc]; rfl
    · rw [if_neg hc]; exact h
  | button b v => exact h

/-- `State.apply` never makes a present button entry absent. -/
theorem apply_buttons_isSome_mono (s : State) (e : Event) (b : Button)
    (h : (s.buttons b).isSome = true) : ((State.apply s e).buttons b).isSome = true := by
  cases e with
  | axis a2 v => exact h
  | shoulder sh v => exact h
  | button b2 v =>
    simp only [State.apply]
    by_cases hc : b = b2
    · rw [if_pos hc]; rfl
    · rw [if_neg hc]; exact h

/-- Presence of an axis entry is preserved by any run of the reader loop. -/
theorem applyAll_axes_isSome_mono (evs : List Event) (s : State) (a : Axis)
    (h : (s.axes a).isSome = true) : ((State.applyAll s evs).axes a).isSome = true := by
  induction evs generalizing s with
  | nil => exact h
  | cons e rest ih => exact ih (State.apply s e) (apply_axes_isSome_mono s e a h)

/-- Presence of a shoulder entry is preserved by any run of the reader loop. -/
theorem applyAll_shoulders_isSome_mono (evs : List Event) (s : State) (sh : Shoulder)
    (h : (s.shoulders sh).isSome = true) :
    ((State.applyAll s evs).shoulders sh).isSome = true := by
  induction evs generalizing s with
  | nil => exact h
  | cons e rest ih => exact ih (State.apply s e) (apply_shoulders_isSome_mono s e sh h)

/-- Presence of a button entry is preserved by any run of the reader loop. -/
theorem applyAll_buttons_isSome_mono (evs : List Event) (s : State) (b : Button)
    (h : (s.buttons b).isSome = true) : ((State.applyAll s evs).buttons b).isSome = true := by
  induction evs generalizing s with
  | nil => exact h
  | cons e rest ih => exact ih (State.apply s e) (apply_buttons_isSome_mono s e b h)

end SixAxisRs

namespace SixAxisRs

/-! ## Claim theorems -/

/-- Claim C1 (code bug).  The claimed stick decode does not happen: on the
record `[0,0,0,0, 0x00,0x80, 2, 0]` (type=2, index=0, value=0x8000) the code
panics inside `process_event` (modelled as `none`), and even the inner
`process_stick` returns `Ok(Axis(LX, 0))` for values 0x8000, 0x7FFF and 0
alike — it discards the (correctly computed) sign-extended `s_val` and the
index.  The last two conjuncts record that the discarded `s_val` computation
itself sign-extends exactly as the claim demands. -/
theorem stick_decode_bug :
    process_event [0, 0, 0, 0, 0x00, 0x80, 2, 0] = none ∧
    process_stick 0 0x8000 = .ok (.axis .LX 0) ∧
    process_stick 0 0x7FFF = .ok (.axis .LX 0) ∧
    process_stick 0 0 = .ok (.axis .LX 0) ∧
    stick_s_val 0x8000 = -32768 ∧
    stick_s_val 0x7FFF = 32767 ∧
    stick_s_val 0 = 0 := by
  refine ⟨rfl, rfl, rfl, rfl, by decide, by decide, by decide⟩

/-- Claim C2 (code bug).  The claimed button decode does not happen: on the
record `[0,0,0,0, 1,0, 1, 16]` (type=1, index=16, value=1) the code panics
inside `process_event` (modelled as `none`), and even the inner
`process_button` returns `Ok(Button(Start, false))` for index 16 with value 1
and value 0 alike — never `ButtonEvent(PS, true)`. -/
theorem button_decode_bug :
    process_event [0, 0, 0, 0, 1, 0, 1, 16] = none ∧
    process_button 16 1 = .ok (.button .Start false) ∧
    process_button 16 0 = .ok (.button .Start false) := by
  refine ⟨rfl, rfl, rfl⟩

/-- Claim C3 (code bug).  `process_event` panics on every 8-byte record (and
indeed on any record): it hands the 3-byte slice `buf[0..3]` to
`NativeEndian::read_u32`, which requires at least 4 bytes, so the byteorder
length assert fires before anything else happens.  (The 1-byte slice
`buf[4..5]` handed to `read_u16` would panic as well.)  Decode is therefore
never total: it returns neither an `Event` nor a decode failure. -/
theorem process_event_always_panics (buf : List Nat) : process_event buf = none := by
  have hlen : (slice buf 0 3).length ≤ 3 := by
    simp [slice]
  have h32 : read_u32_ne (slice buf 0 3) = none := by
    rw [read_u32_ne, if_neg]
    omega
  simp [process_event, h32]

/-- Claim C4 counterexample.  Tag 128 (`EVENT_TYPE_INIT`) is NOT decoded as
an analog-stick record: the dispatch match sends it to the wildcard arm,
`Err(Error::UnknownError)`, whereas the stick arm matches tags 2 and 130
(`EVENT_TYPE_INITSTICK`). -/
theorem dispatch_tag128_not_stick :
    process_event_dispatch 128 0 0 = .error .UnknownError ∧
    process_event_dispatch 128 0 0 ≠ process_stick 0 0 := by
  exact ⟨rfl, fun hc => Except.noConfusion hc⟩

/-- Claim C4 amended.  The tag dispatch of `process_event` (lib.rs lines
295-299), applied to the extracted fields, sends tags 2 (`EVENT_TYPE_STICK`)
and 130 (`EVENT_TYPE_INITSTICK`) to the stick decoder, tags 1
(`EVENT_TYPE_BUTTON`) and 129 (`EVENT_TYPE_INITBUTTON`) to the button
decoder, and every other tag — including 128 — to the decode failure
`Error::UnknownError` (the source's `Error` enum has no `UnknownEventType`
variant). -/
theorem dispatch_table (t i v : Nat) :
    ((t = 2 ∨ t = 130) → process_event_dispatch t i v = process_stick i v) ∧
    ((t = 1 ∨ t = 129) → process_event_dispatch t i v = process_button i v) ∧
    (t ≠ 1 ∧ t ≠ 2 ∧ t ≠ 129 ∧ t ≠ 130 →
      process_event_dispatch t i v = .error .UnknownError) := by
  refine ⟨fun h => ?_, fun h => ?_, fun h => ?_⟩
  · rcases h with h | h <;> subst h <;> rfl
  · rcases h with h | h <;> subst h <;> rfl
  · obtain ⟨h1, h2, h3, h4⟩ := h
    rw [process_event_dispatch, if_neg, if_neg]
    · rintro (hc | hc) <;> simp [EVENT_TYPE_BUTTON, EVENT_TYPE_INITBUTTON] at hc <;> omega
    · rintro (hc | hc) <;> simp [EVENT_TYPE_STICK, EVENT_TYPE_INITSTICK] at hc <;> omega

/-- Witness for `dispatch_table`: tag 130 is dispatched to the stick
decoder. -/
theorem dispatch_table_witness :
    process_event_dispatch 130 5 7 = process_stick 5 7 :=
  (dispatch_table 130 5 7).1 (Or.inr rfl)

/-- Claim C5 (code bug).  The decoders never reject an unmapped control
index: `process_stick` returns the fabricated `Ok(Axis(LX, 0))` even for
indices 4 and 99 (outside the stick table {0,1,2,3,12,13,14,15}), and
`process_button` returns the fabricated `Ok(Button(Start, false))` even for
indices 17 and 255 (outside 0..=16).  The source's `Error` enum has no
`UnknownControlIndex` variant at all. -/
theorem unmapped_index_bug :
    process_stick 4 100 = .ok (.axis .LX 0) ∧
    process_stick 99 0 = .ok (.axis .LX 0) ∧
    process_button 17 1 = .ok (.button .Start false) ∧
    process_button 255 1 = .ok (.button .Start false) := by
  refine ⟨rfl, rfl, rfl, rfl⟩

/-- Claim C6 (confirmed).  For every axis, shoulder and button for which the
reader loop has applied no event — starting from the empty state of
`State::new`, as produced by `SixAxis::new` — `read_axis` returns `Ok(0)`,
`read_shoulder` returns `Ok(0)` and `read_button` returns `Ok(false)`: the
rest values, and never a failure. -/
theorem read_rest_values (p : String) (c : Option Nat) (evs : List Event)
    (a : Axis) (sh : Shoulder) (b : Button)
    (ha : ∀ v, Event.axis a v ∉ evs)
    (hs : ∀ v, Event.shoulder sh v ∉ evs)
    (hb : ∀ v, Event.button b v ∉ evs) :
    SixAxis.read_axis ⟨p, State.applyAll State.new evs, c⟩ a = .ok 0 ∧
    SixAxis.read_shoulder ⟨p, State.applyAll State.new evs, c⟩ sh = .ok 0 ∧
    SixAxis.read_button ⟨p, State.applyAll State.new evs, c⟩ b = .ok false := by
  have hax : (State.applyAll State.new evs).axes a = none := by
    rw [applyAll_axes_of_not_mem evs State.new a ha]; rfl
  have hsh : (State.applyAll State.new evs).shoulders sh = none := by
    rw [applyAll_shoulders_of_not_mem evs State.new sh hs]; rfl
  have hbt : (State.applyAll State.new evs).buttons b = none := by
    rw [applyAll_buttons_of_not_mem evs State.new b hb]; rfl
  refine ⟨?_, ?_, ?_⟩
  · simp [SixAxis.read_axis, hax]
  · simp [SixAxis.read_shoulder, hsh]
  · simp [SixAxis.read_button, hbt]

/-- Witness for `read_rest_values`: after applying only an LY event, LX, L1
and PS still read their rest values. -/
theorem read_rest_values_witness :
    SixAxis.read_axis ⟨"dev", State.applyAll State.new [Event.axis Axis.LY 5], none⟩ Axis.LX
      = .ok 0 ∧
    SixAxis.read_shoulder ⟨"dev", State.applyAll State.new [Event.axis Axis.LY 5], none⟩
      Shoulder.L1 = .ok 0 ∧
    SixAxis.read_button ⟨"dev", State.applyAll State.new [Event.axis Axis.LY 5], none⟩
      Button.PS = .ok false :=
  read_rest_values "dev" none [Event.axis Axis.LY 5] Axis.LX Shoulder.L1 Button.PS
    (by intro v hv; simp at hv)
    (by intro v hv; simp at hv)
    (by intro v hv; simp at hv)

/-- Claim C7 (confirmed).  Starting from an arbitrary state, applying
LX := v1, then RX := v2, then LX := v3 leaves `read_axis LX = Ok(v3)`
(last-write-wins, v1 is gone) and `read_axis RX = Ok(v2)` (unaffected by the
repeated LX writes). -/
theorem last_write_wins (p : String) (c : Option Nat) (s : State) (v1 v2 v3 : Int) :
    SixAxis.read_axis
      ⟨p, State.apply (State.apply (State.apply s (.axis .LX v1)) (.axis .RX v2)) (.axis .LX v3),
        c⟩ .LX = .ok v3 ∧
    SixAxis.read_axis
      ⟨p, State.apply (State.apply (State.apply s (.axis .LX v1)) (.axis .RX v2)) (.axis .LX v3),
        c⟩ .RX = .ok v2 := by
  constructor <;> simp [SixAxis.read_axis, State.apply]

/-- Claim C8 (code bug).  `SixAxis::open` on an already-open handle (child
present, device file opens fine) does NOT return `AlreadyOpen`: it returns
`Ok(())` and silently overwrites `self.child` with the new reader handle —
the `AlreadyOpen` variant is declared but never constructed.  The second half
of the claim does hold: `close` on a never-opened handle returns
`Err(NotOpen)` and leaves the handle unchanged. -/
theorem open_ignores_already_open (p : String) (st : State) (h h2 : Nat) :
    SixAxis.open_impl ⟨p, st, some h⟩ (.ok ()) h2 = (.ok (), ⟨p, st, some h2⟩) ∧
    SixAxis.close ⟨p, st, none⟩ = (.error .NotOpen, ⟨p, st, none⟩) := by
  exact ⟨rfl, rfl⟩

/-- Claim C9 (confirmed).  Each apply of a decoded event writes exactly one
entry in exactly one of the three mappings — the event's own control gets the
event's value, every other key of that mapping and the two other mappings are
untouched — and presence of any entry in any mapping is preserved by every
subsequent run of the reader loop: the mappings only ever grow. -/
theorem apply_grow_only (s : State) (ev : Event) (evs : List Event) :
    (match ev with
      | .axis a v =>
          (State.apply s ev).axes a = some v ∧
          (∀ x, x ≠ a → (State.apply s ev).axes x = s.axes x) ∧
          (State.apply s ev).shoulders = s.shoulders ∧
          (State.apply s ev).buttons = s.buttons
      | .shoulder sh v =>
          (State.apply s ev).shoulders sh = some v ∧
          (∀ x, x ≠ sh → (State.apply s ev).shoulders x = s.shoulders x) ∧
          (State.apply s ev).axes = s.axes ∧
          (State.apply s ev).buttons = s.buttons
      | .button b v =>
          (State.apply s ev).buttons b = some v ∧
          (∀ x, x ≠ b → (State.apply s ev).buttons x = s.buttons x) ∧
          (State.apply s ev).axes = s.axes ∧
          (State.apply s ev).shoulders = s.shoulders) ∧
    (∀ a, (s.axes a).isSome = true → ((State.applyAll s evs).axes a).isSome = true) ∧
    (∀ sh, (s.shoulders sh).isSome = true →
      ((State.applyAll s evs).shoulders sh).isSome = true) ∧
    (∀ b, (s.buttons b).isSome = true → ((State.applyAll s evs).buttons b).isSome = true) := by
  refine ⟨?_, fun a => applyAll_axes_isSome_mono evs s a,
    fun sh => applyAll_shoulders_isSome_mono evs s sh,
    fun b => applyAll_buttons_isSome_mono evs s b⟩
  cases ev with
  | axis a v =>
    refine ⟨by simp [State.apply], fun x hx => ?_, rfl, rfl⟩
    simp [State.apply, hx]
  | shoulder sh v =>
    refine ⟨by simp [State.apply], fun x hx => ?_, rfl, rfl⟩
    simp [State.apply, hx]
  | button b v =>
    refine ⟨by simp [State.apply], fun x hx => ?_, rfl, rfl⟩
    simp [State.apply, hx]

/-- Witness for `apply_grow_only`: after applying an LX event and then a
button event, the LX entry is still present. -/
theorem apply_grow_only_witness :
    ((State.applyAll (State.apply State.new (Event.axis Axis.LX 3))
        [Event.button Button.PS true]).axes Axis.LX).isSome = true :=
  (apply_grow_only (State.apply State.new (Event.axis Axis.LX 3)) (Event.button Button.PS true)
      [Event.button Button.PS true]).2.1 Axis.LX (by decide)

/-- Claim C10 (confirmed).  `SixAxis::close` on a handle whose reader handle
is present (the state `open` leaves behind: the first conjunct ties the two
together) always returns `Err(NotImplemented)` — it never succeeds — and
leaves the handle completely unchanged: the child handle is still there and
every subsequent read returns exactly what it returned before the call. -/
theorem close_not_implemented (p : String) (st : State) (c : Option Nat) (h : Nat) :
    (SixAxis.open_impl ⟨p, st, c⟩ (.ok ()) h).2 = ⟨p, st, some h⟩ ∧
    SixAxis.close ⟨p, st, some h⟩ = (.error .NotImplemented, ⟨p, st, some h⟩) ∧
    (SixAxis.close ⟨p, st, some h⟩).2.child = some h ∧
    (∀ a, SixAxis.read_axis (SixAxis.close ⟨p, st, some h⟩).2 a
      = SixAxis.read_axis ⟨p, st, some h⟩ a) ∧
    (∀ sh, SixAxis.read_shoulder (SixAxis.close ⟨p, st, some h⟩).2 sh
      = SixAxis.read_shoulder ⟨p, st, some h⟩ sh) ∧
    (∀ b, SixAxis.read_button (SixAxis.close ⟨p, st, some h⟩).2 b
      = SixAxis.read_button ⟨p, st, some h⟩ b) := by
  exact ⟨rfl, rfl, rfl, fun a => rfl, fun sh => rfl, fun b => rfl⟩

end SixAxisRs
